import Mathlib

/-!
Verification development for the RAID-PIR repository (dd23/RAID-PIR).

The Python sources `raidpir_client.py` and `raidpir_vendor.py` are shallowly
embedded below: pure computations become Lean functions, stateful handlers
become explicit state-passing functions, and I/O is recorded as explicit
event traces.  Machine arithmetic is modelled with `Nat`/`Int`/`Rat`
(Python integers are unbounded; Python `time.time()` values are modelled as
integers, which preserves the semantics of the comparisons performed on
them; Python 3 true division `/` at the inputs analysed here is exact and is
modelled by rational division).  Fallible code returns `Option`/`Except` or
an explicit "raised" constructor.
-/

namespace RaidPir

/-! ### Python string membership (`needle in haystack`) -/

/-- Python substring containment `needle in hay`, on character lists:
true iff `needle` occurs contiguously inside `hay`. -/
def listContainsSub : List Char → List Char → Bool
  | hay, needle =>
    needle.isPrefixOf hay ||
      match hay with
      | [] => false
      | _ :: t => listContainsSub t needle

/-- Python `sub in s` on strings. -/
def pyIn (sub s : String) : Bool :=
  listContainsSub s.data sub.data

/-! ### Client worker error handling (`_request_helper`, `_request_helper_chunked`,
`raidpir_client.py` lines 91-159)

One loop iteration sends an XOR request over the mirror socket.  If the send
raises, the handler inspects `str(e)`: when the message contains the
substring `"socked"` it calls `rxgobj.notify_failure(thisrequest)`;
otherwise it re-raises.  We model one iteration's outcome as a function of
the exception (if any) raised by `lib.request_xorblock` /
`lib.request_xorblock_chunked*`. -/

/-- A Python exception, abstracted to its `str()` rendering. -/
structure PyExc where
  msg : String
deriving DecidableEq, Repr

/-- What one loop iteration of a request helper does after the send. -/
inductive WorkerStep where
  /-- the send succeeded; the helper fetches the next request -/
  | sent
  /-- `rxgobj.notify_failure(thisrequest)` was called, the loop continues -/
  | notifiedFailure
  /-- the exception was re-raised out of the helper -/
  | reraised (msg : String)
deriving DecidableEq, Repr

/-- One iteration of `_request_helper` (lines 100-116): `sendResult` is
`none` when `lib.request_xorblock` returned normally and `some e` when it
raised the exception `e`. -/
def request_helper_step (sendResult : Option PyExc) : WorkerStep :=
  match sendResult with
  | none => .sent
  | some e => if pyIn "socked" e.msg then .notifiedFailure else .reraised e.msg

/-- One iteration of `_request_helper_chunked` (lines 132-156); the
`except` clause is identical to the plain helper's (lines 146-153). -/
def request_helper_chunked_step (sendResult : Option PyExc) : WorkerStep :=
  match sendResult with
  | none => .sent
  | some e => if pyIn "socked" e.msg then .notifiedFailure else .reraised e.msg

/-! ### Client command-line options (`parse_options`, `raidpir_client.py`
lines 344-443) -/

/-- The fields of `_commandlineoptions` relevant to control flow.
`retrievemanifestfrom` is `true` when a nonempty `--retrievemanifestfrom`
argument was given (the Python code tests the string's truthiness). -/
structure Options where
  retrievemanifestfrom : Bool
  printfiles : Bool
  numberofmirrors : Int
  redundancy : Option Int
  rng : Bool
  parallel : Bool
  batch : Bool
  timing : Bool
deriving DecidableEq, Repr

/-- Python truthiness of `_commandlineoptions.redundancy`
(`not redundancy` is true for `None` and for `0`). -/
def pyFalsyRedundancy : Option Int → Bool
  | none => true
  | some r => r == 0

/-- Lines 412-414: `if _commandlineoptions.parallel:
_commandlineoptions.rng = True`, executed before any sanity check. -/
def applyParallel (o : Options) : Options :=
  if o.parallel then { o with rng := true } else o

/-- The sanity checks of `parse_options` (lines 416-440), in source order:
`k < 2`, `r < 2`, `r > k`, rng/parallel without chunks (Python `not
redundancy`), and no file named while `--printfilenames` is absent.  Each
calls `sys.exit(1)`, modelled as `some 1`. -/
def parse_checks (o : Options) (remainingargs : List String) :
    Options × Option Nat :=
  if o.numberofmirrors < 2 then (o, some 1)
  else if (o.redundancy.map (fun r => decide (r < 2))).getD false then (o, some 1)
  else if (o.redundancy.map (fun r => decide (o.numberofmirrors < r))).getD false then (o, some 1)
  else if (o.rng || o.parallel) && pyFalsyRedundancy o.redundancy then (o, some 1)
  else if remainingargs.isEmpty && !o.printfiles then (o, some 1)
  else (o, none)

/-- The function `parse_options` after `optparse` has filled `o` and
`remainingargs` (lines 410-443): the `-p` ⇒ `-R` forcing followed by the
sanity checks.  Returns the final option record and `some code` when the
function calls `sys.exit(code)`. -/
def parse_options (o : Options) (remainingargs : List String) :
    Options × Option Nat :=
  parse_checks (applyParallel o) remainingargs

/-! ### Client main control flow (`main`, `raidpir_client.py` lines 476-521)

We record the network contacts a run performs, in order. -/

/-- A network contact made by the client. -/
inductive NetEvent where
  /-- manifest download from the vendor (`lib.retrieve_rawmanifest`) -/
  | vendorManifestDownload
  /-- mirror-list request to the vendor (`lib.retrieve_mirrorinfolist`,
  performed inside `request_blocks_from_mirrors`) -/
  | vendorMirrorlist
  /-- connection to a mirror (inside the XOR requestor) -/
  | mirrorConnect
deriving DecidableEq, Repr

/-- The observable outcome of a client run. -/
structure ClientRun where
  events : List NetEvent
  exit : Option Nat
deriving DecidableEq, Repr

/-- The function `main` (lines 476-521), for a run in which the manifest parses.
`blockcount` and `filelist` come from the parsed manifest.  In order:
manifest retrieval (lines 480-494, contacting the vendor iff
`--retrievemanifestfrom` was given), the chunk/blockcount guard (lines
501-503), the requested-file membership loop (lines 513-517, `sys.exit(2)`
at the first absent file), and finally `request_files_from_mirrors`
(lines 520-521), which requests the mirror list from the vendor and then
contacts the mirrors. -/
def client_main (o : Options) (files : List String) (blockcount : Int)
    (filelist : List String) : ClientRun :=
  let ev0 : List NetEvent :=
    if o.retrievemanifestfrom then [.vendorManifestDownload] else []
  if blockcount < o.numberofmirrors * 8 && o.redundancy.isSome then
    { events := ev0, exit := some 1 }
  else if files.any (fun f => decide (f ∉ filelist)) then
    { events := ev0, exit := some 2 }
  else if 0 < files.length then
    { events := ev0 ++ [.vendorMirrorlist, .mirrorConnect], exit := none }
  else
    { events := ev0, exit := none }

/-- A whole client invocation: `parse_options` (which performs no I/O)
followed by `main`.  A `sys.exit` in `parse_options` happens before any
network contact. -/
def run_client (o : Options) (files : List String) (blockcount : Int)
    (filelist : List String) : ClientRun :=
  match parse_options o files with
  | (_, some c) => { events := [], exit := some c }
  | (o', none) => client_main o' files blockcount filelist

/-! ### Chunk layout arithmetic (`request_blocks_from_mirrors`,
`raidpir_client.py` lines 237-241) -/

/-- Modelled from the spec: `lib.bits_to_bytes` lives in `raidpirlib.py`,
which is not part of the analysed sources; the spec fixes a BitVector of
`n` bits to be stored as `ceil(n/8)` bytes. -/
def bits_to_bytes (n : ℕ) : ℕ :=
  n / 8 + (if n % 8 = 0 then 0 else 1)

/-- Line 240: `chunklen = (manifestdict['blockcount'] / 8) / numberofmirrors`
(line 240).  Python 3 `/` is true division; it is modelled as exact
rational division (exact in Python's floats whenever the result's binary
expansion is short enough, in particular at every input evaluated in the
theorems below). -/
def chunklen (blockcount k : ℕ) : ℚ :=
  ((blockcount : ℚ) / 8) / (k : ℚ)

/-- Line 241: `lastchunklen = lib.bits_to_bytes(blockcount) - (numberofmirrors-1)*chunklen`
(line 241). -/
def lastchunklen (blockcount k : ℕ) : ℚ :=
  (bits_to_bytes blockcount : ℚ) - ((k : ℚ) - 1) * chunklen blockcount k

/-! ### Requested-block accumulation (`request_files_from_mirrors`,
`raidpir_client.py` lines 302-311) -/

/-- The inner loop `for blocknum in theseblocks: if blocknum not in
neededblocks: neededblocks.append(blocknum)`. -/
def appendNewBlocks (acc : List ℕ) (theseblocks : List ℕ) : List ℕ :=
  theseblocks.foldl (fun a b => if b ∈ a then a else a ++ [b]) acc

/-- The `neededblocks` list built by the outer loop over
`requestedfilelist` (lines 305-311); `blocksFor` stands for
`lib.get_blocklist_for_file (·, manifestdict)`. -/
def neededblocks (blocksFor : String → List ℕ)
    (requestedfilelist : List String) : List ℕ :=
  requestedfilelist.foldl (fun a f => appendNewBlocks a (blocksFor f)) []

/-- Modelled from the spec: the XOR requestor (`simplexorrequestor.py`, not
part of the analysed sources) processes the requested block indices in
ascending order; its processing order is the ascending sort of the
requested block list. -/
def processing_order (blocks : List ℕ) : List ℕ :=
  blocks.insertionSort (· ≤ ·)

/-! ### File hashing and write-out (`request_files_from_mirrors`,
`raidpir_client.py` lines 317-338) -/

/-- One entry of `manifestdict['fileinfolist']`, restricted to the fields
this loop reads. -/
structure FileInfo where
  filename : String
  hash : String
deriving DecidableEq, Repr

/-- Python `os.path.basename`: the part after the last `/`. -/
def basename (s : String) : String :=
  (s.splitOn "/").getLastD ""

/-- The write-out loop (lines 317-338).  `findHash` stands for
`lib.find_hash (·, manifestdict['hashalgorithm'])` and `extract` for
`lib.extract_file_from_blockdict (·, manifestdict, blockdict)`; both live
in `raidpirlib.py` and are kept opaque.  The inner
`for fileinfo in fileinfolist ... break / else raise` searches for the
first entry whose `filename` matches and raises when the hash mismatches
or no entry exists.  Returns the basenames written to disk, in order, and
`some message` when an exception aborted the loop. -/
def write_phase (findHash : String → String) (extract : String → String)
    (fileinfolist : List FileInfo) :
    List String → List String × Option String
  | [] => ([], none)
  | f :: rest =>
    match fileinfolist.find? (fun fi => fi.filename == f) with
    | none => ([], some "Internal Error: Cannot locate fileinfo in manifest!")
    | some fi =>
      if findHash (extract f) = fi.hash then
        let r := write_phase findHash extract fileinfolist rest
        (basename f :: r.1, r.2)
      else
        ([], some "Corrupt manifest has incorrect file hash despite passing block hash checks!")

/-! ### Manifest retrieval (`main`, `raidpir_client.py` lines 479-494) -/

/-- The manifest phase of `main`.  `parse` stands for
`lib.parse_manifest` (kept opaque; `.error` models it raising).  When
`--retrievemanifestfrom` is given the raw bytes are downloaded, parsed,
and only then written to the local manifest file (lines 482-488); the
returned Bool records whether `open(manifestfilename, "wb").write(...)`
executed. -/
def manifest_phase (retrievemanifestfrom : Bool) (raw : String)
    (parse : String → Except PyExc Unit) : Except PyExc Unit × Bool :=
  if retrievemanifestfrom then
    match parse raw with
    | .error e => (.error e, false)
    | .ok m => (.ok m, true)
  else
    (parse raw, false)

/-! ### Vendor mirror-list bookkeeping (`raidpir_vendor.py`) -/

/-- Python values as produced by `msgpack.unpackb(…, raw=False)`,
restricted to the shapes this code inspects.  Dictionaries are modelled as
insertion-ordered association lists with string keys (a msgpack map with a
non-string key could never satisfy the `'ip' in …` membership tests
below). -/
inductive PyVal where
  | vstr (s : String)
  | vint (n : Int)
  | vdict (entries : List (String × PyVal))

/-- Python `str(v)` for the values that can appear under `'port'`;
only its use in building the `'ip:port'` key matters here. -/
def pyStr : PyVal → String
  | .vstr s => s
  | .vint n => toString n
  | .vdict _ => "dict"

/-- One value of `_global_mirrorinfodict`:
`{'mirrorinfo': …, 'advertisetime': now}`. -/
structure MirrorEntry where
  mirrorinfo : PyVal
  advertisetime : Int

/-- The global `_global_mirrorinfodict`, an insertion-ordered Python dict. -/
abbrev MirrorDict := List (String × MirrorEntry)

/-- Python dict assignment `d[k] = v`: replaces the value in place when
the key exists, appends otherwise. -/
def dictSet : List (String × MirrorEntry) → String → MirrorEntry →
    List (String × MirrorEntry)
  | [], k, v => [(k, v)]
  | (k', v') :: rest, k, v =>
    if k' = k then (k, v) :: rest else (k', v') :: dictSet rest k v

/-- Lookup in a `PyVal` dict body (`d['k']` / `'k' in d`): the first
binding of the key. -/
def dictLookup (entries : List (String × PyVal)) (k : String) : Option PyVal :=
  (entries.find? (fun p => p.1 == k)).map (fun p => p.2)

/-- Python equality of `d['ip']` against the `str` `remoteip`
(`mirrorinfodict['ip'] != remoteip` at line 245 is its negation): a value
equals a `str` exactly when it is that `str`. -/
def pyEqStr : Option PyVal → String → Bool
  | some (.vstr s), t => s == t
  | _, _ => false

/-- The `for index in _global_mirrorinfodict` loop of
`_check_for_expired_mirrorinfo` (lines 104-109), which executes
`del _global_mirrorinfodict[index]` on expired entries *while iterating
the dict*.  CPython's dict iterator raises
`RuntimeError: dictionary changed size during iteration` on the next
`__next__` call after any size change, so the loop deletes the first
expired entry and then raises.  Returns the dict after the loop and
whether `RuntimeError` was raised. -/
def expire_loop (now expiry : Int) :
    List (String × MirrorEntry) → List (String × MirrorEntry) × Bool
  | [] => ([], false)
  | (k, e) :: rest =>
    if expiry + e.advertisetime < now then
      (rest, true)
    else
      let r := expire_loop now expiry rest
      ((k, e) :: r.1, r.2)

/-- The function `_check_for_expired_mirrorinfo` (lines 91-121) in the single-handler
case (the `acquire(False)` succeeds).  The `try/finally` releases the lock
but does not catch the `RuntimeError`, so when the loop raises, the
rebuild of `_global_rawmirrorlist` (lines 111-117) is skipped and the
exception propagates.  Returns the dict afterwards and `some mirrorlist`
(the rebuilt list of `mirrorinfo` records) when no exception was
raised. -/
def check_for_expired_mirrorinfo (now expiry : Int) (d : MirrorDict) :
    MirrorDict × Option (List PyVal) :=
  let r := expire_loop now expiry d
  if r.2 then (r.1, none)
  else (r.1, some (r.1.map (fun p => p.2.mirrorinfo)))

/-- The `GET MIRRORLIST` branch of
`ThreadedVendorRequestHandler.handle` (lines 201-211): run the expiry
check, then `session.sendmessage(..., _global_rawmirrorlist)`.  The reply
component is `none` when the expiry check raised (the exception escapes
`handle` and no reply is sent) and `some l` when the serialized list `l`
was sent. -/
def handle_get_mirrorlist (now expiry : Int) (d : MirrorDict) :
    MirrorDict × Option (List PyVal) :=
  check_for_expired_mirrorinfo now expiry d

/-! ### Vendor `MIRRORADVERTISE` handling (`raidpir_vendor.py` lines
124-140 and 213-258) -/

/-- Outcome of one `MIRRORADVERTISE` handling. -/
inductive AdvertiseResult where
  /-- `session.sendmessage(self.request, s)` was executed -/
  | replied (s : String)
  /-- an exception escaped the handler; no reply was sent -/
  | raisedTypeError
deriving DecidableEq, Repr

/-- The function `_add_mirrorinfo_to_list` (lines 124-140):
`index = thismirrorinfo['ip'] + ":" + str(thismirrorinfo['port'])`.
String concatenation requires the `'ip'` value to be a Python `str`;
otherwise a `TypeError` is raised (modelled by `.error`).  On success the
entry is stored under `ip:port`, replacing any previous entry for that
key. -/
def add_mirrorinfo_to_list (now : Int) (d : MirrorDict)
    (entries : List (String × PyVal)) : Except Unit MirrorDict :=
  match dictLookup entries "ip", dictLookup entries "port" with
  | some (.vstr ip), some portv =>
    .ok (dictSet d (ip ++ ":" ++ pyStr portv) ⟨.vdict entries, now⟩)
  | _, _ => .error ()

/-- The `MIRRORADVERTISE` branch of `handle` (lines 213-258).  The raw
payload is abstracted to its byte length `payloadLen` together with the
outcome `unpacked` of `msgpack.unpackb(…, raw=False)` (`none` models the
caught `TypeError`/`ValueError`).  Checks in code order: size (line 222),
unpackability (line 230), dict shape with `'ip'` and `'port'` keys
(line 237), and sender-IP match when `--checkmirrorip` is set
(lines 244-248); then `_add_mirrorinfo_to_list` and the `'OK'` reply. -/
def handle_advertise (maxmirrorinfo : Int) (checkmirrorip : Bool)
    (now : Int) (remoteip : String) (payloadLen : Nat)
    (unpacked : Option PyVal) (d : MirrorDict) :
    MirrorDict × AdvertiseResult :=
  if maxmirrorinfo < (payloadLen : Int) then
    (d, .replied "Error, mirrorinfo too large!")
  else
    match unpacked with
    | none => (d, .replied "Error cannot unpack mirrorinfo!")
    | some (.vdict entries) =>
      if (dictLookup entries "ip").isNone || (dictLookup entries "port").isNone then
        (d, .replied "Error, mirrorinfo has an invalid format.")
      else if checkmirrorip && !(pyEqStr (dictLookup entries "ip") remoteip) then
        (d, .replied "Error, must provide mirrorinfo from the mirror's IP")
      else
        match add_mirrorinfo_to_list now d entries with
        | .ok d' => (d', .replied "OK")
        | .error _ => (d, .raisedTypeError)
    | some _ => (d, .replied "Error, mirrorinfo has an invalid format.")

/-- Transcription of the acceptance conditions stated by the claim about
`MIRRORADVERTISE` (for comparison with `handle_advertise`): payload at
most `maxmirrorinfo` bytes, unpacking to a dict that contains `'ip'` and
`'port'`, and — when `checkmirrorip` is set — an `'ip'` equal to the
sender's IP. -/
def claimedAdvertiseOk (maxmirrorinfo : Int) (checkmirrorip : Bool)
    (remoteip : String) (payloadLen : Nat) : Option PyVal → Bool
  | some (.vdict entries) =>
    decide ((payloadLen : Int) ≤ maxmirrorinfo) &&
    (dictLookup entries "ip").isSome &&
    (dictLookup entries "port").isSome &&
    (!checkmirrorip || pyEqStr (dictLookup entries "ip") remoteip)
  | _ => false

/-- Whether the `'ip'` value of an unpacked mirrorinfo dict is a Python
`str` (the type `_add_mirrorinfo_to_list` needs for its string
concatenation). -/
def ipIsStr (entries : List (String × PyVal)) : Bool :=
  match dictLookup entries "ip" with
  | some (.vstr _) => true
  | _ => false

/-! ## Helper lemmas -/

theorem applyParallel_numberofmirrors (o : Options) :
    (applyParallel o).numberofmirrors = o.numberofmirrors := by
  unfold applyParallel
  split <;> rfl

theorem applyParallel_redundancy (o : Options) :
    (applyParallel o).redundancy = o.redundancy := by
  unfold applyParallel
  split <;> rfl

theorem applyParallel_retrievemanifestfrom (o : Options) :
    (applyParallel o).retrievemanifestfrom = o.retrievemanifestfrom := by
  unfold applyParallel
  split <;> rfl

theorem applyParallel_rng (o : Options) :
    (applyParallel o).rng = (o.rng || o.parallel) := by
  unfold applyParallel
  split <;> simp_all

theorem applyParallel_parallel (o : Options) :
    (applyParallel o).parallel = o.parallel := by
  unfold applyParallel
  split <;> rfl

theorem parse_checks_fst (o : Options) (args : List String) :
    (parse_checks o args).1 = o := by
  unfold parse_checks
  repeat' split
  all_goals rfl

theorem parse_checks_exit_one (o : Options) (args : List String) (c : Nat)
    (h : (parse_checks o args).2 = some c) : c = 1 := by
  unfold parse_checks at h
  repeat' split at h
  all_goals simp_all

theorem parse_options_fst (o : Options) (args : List String) :
    (parse_options o args).1 = applyParallel o :=
  parse_checks_fst _ _

theorem run_client_eq (o : Options) (files : List String) (bc : Int)
    (fl : List String) :
    run_client o files bc fl =
      match (parse_options o files).2 with
      | some c => { events := [], exit := some c }
      | none => client_main (applyParallel o) files bc fl := by
  unfold run_client
  rw [← parse_options_fst o files]
  rcases h : parse_options o files with ⟨o', e⟩
  cases e <;> rfl

theorem client_main_chunk_guard (o : Options) (files : List String)
    (bc : Int) (fl : List String) (hr : o.redundancy.isSome = true)
    (hbc : bc < o.numberofmirrors * 8) :
    client_main o files bc fl =
      { events := if o.retrievemanifestfrom then [NetEvent.vendorManifestDownload] else [],
        exit := some 1 } := by
  unfold client_main
  have hguard : (decide (bc < o.numberofmirrors * 8) && o.redundancy.isSome) = true := by
    simp [hr, hbc]
  simp only [hguard, if_true]

/-! ## Claim theorems -/

/-- C2: a socket error raised while sending an XOR request is **not**
reported through `notify_failure`; both request helpers re-raise it,
because the handler tests for the substring `"socked"` (a typo for
`"socket"`, as the code's own comment `# otherwise, re-raise...` and the
spec's failure-handling section show), which no real socket error message
contains.  Evaluated at the failing input `socket.error("[Errno 111]
Connection refused")`. -/
theorem socket_error_is_reraised :
    request_helper_step (some ⟨"[Errno 111] Connection refused"⟩) =
      WorkerStep.reraised "[Errno 111] Connection refused" ∧
    request_helper_chunked_step (some ⟨"[Errno 111] Connection refused"⟩) =
      WorkerStep.reraised "[Errno 111] Connection refused" ∧
    pyIn "socked" "[Errno 111] Connection refused" = false ∧
    request_helper_step (some ⟨"socked problem"⟩) = WorkerStep.notifiedFailure := by
  refine ⟨?_, ?_, ?_, ?_⟩ <;> decide

/-- C7: passing `-p` forces `-R`: for every option combination, the
configuration produced by `parse_options` has `rng = true` whenever
`parallel` was set (the forcing happens before any sanity check, so it
holds on every exit path as well). -/
theorem parallel_forces_rng (o : Options) (args : List String)
    (h : o.parallel = true) : ((parse_options o args).1).rng = true := by
  rw [parse_options_fst, applyParallel_rng, h, Bool.or_true]

/-- Witness for `parallel_forces_rng` at a concrete option record. -/
theorem parallel_forces_rng_witness :
    (⟨false, false, 2, some 2, false, true, false, false⟩ : Options).parallel = true ∧
    ((parse_options ⟨false, false, 2, some 2, false, true, false, false⟩ ["f"]).1).rng = true :=
  ⟨rfl, parallel_forces_rng ⟨false, false, 2, some 2, false, true, false, false⟩ ["f"] rfl⟩

/-- C10: when the manifest is retrieved from a vendor, the downloaded
bytes are passed through `parse_manifest` before the local manifest file
is opened for writing, so a parse failure leaves the local file
untouched. -/
theorem manifest_parse_guards_write (raw : String)
    (parse : String → Except PyExc Unit) (e : PyExc)
    (h : parse raw = .error e) :
    (manifest_phase true raw parse).2 = false := by
  unfold manifest_phase
  simp [h]

/-- Witness for `manifest_parse_guards_write` with a parser that always
raises. -/
theorem manifest_parse_guards_write_witness :
    ((fun _ : String => (Except.error ⟨"ManifestInvalid"⟩ : Except PyExc Unit)) "raw" =
      Except.error ⟨"ManifestInvalid"⟩) ∧
    (manifest_phase true "raw" (fun _ => Except.error ⟨"ManifestInvalid"⟩)).2 = false :=
  ⟨rfl, manifest_parse_guards_write "raw" (fun _ => Except.error ⟨"ManifestInvalid"⟩)
    ⟨"ManifestInvalid"⟩ rfl⟩

/-- C8: on `GET MIRRORLIST` the expiry sweep does **not** complete
cleanly when an entry has expired: `_check_for_expired_mirrorinfo`
deletes from `_global_mirrorinfodict` while iterating it, so CPython
raises `RuntimeError: dictionary changed size during iteration` right
after the first deletion and the handler sends no reply (first
conjunct: expired entry at `advertisetime = 0`, `now = 1000`,
`mirrorexpirytime = 300`).  Only when nothing expired does the handler
reply, and then nothing was removed (third conjunct). -/
theorem expired_mirror_sweep_raises :
    handle_get_mirrorlist 1000 300 [("1.2.3.4:8080", ⟨PyVal.vstr "mirror1", 0⟩)] =
      ([], none) ∧
    ((300 : Int) + 0 < 1000) ∧
    handle_get_mirrorlist 100 300 [("1.2.3.4:8080", ⟨PyVal.vstr "mirror1", 0⟩)] =
      ([("1.2.3.4:8080", ⟨PyVal.vstr "mirror1", 0⟩)], some [PyVal.vstr "mirror1"]) := by
  refine ⟨rfl, by norm_num, rfl⟩

/-- C3 counterexample: with `--retrievemanifestfrom` set, `-k 2 -r 2` and
a manifest with `blockcount = 8 < 8·2`, the run does exit with code 1 at
the chunk/blockcount guard — but only *after* the vendor has been
contacted to download the manifest, so "no vendor or mirror is contacted"
is false. -/
theorem chunk_guard_after_vendor_contact :
    run_client ⟨true, false, 2, some 2, false, false, false, false⟩ ["f"] 8 ["f"] =
      ⟨[NetEvent.vendorManifestDownload], some 1⟩ ∧
    (run_client ⟨true, false, 2, some 2, false, false, false, false⟩ ["f"] 8 ["f"]).events ≠ [] ∧
    ((8 : Int) < 2 * 8) := by
  refine ⟨rfl, by decide, by norm_num⟩

/-- C3 (amended): pure parameter errors — `k < 2`, `r` set with `r < 2`
or `r > k`, rng/parallel without `r` — exit with code 1 from
`parse_options`, before any network contact; the chunk-mode blockcount
check (`blockcount < 8k`) also exits with code 1 and happens before any
mirror or mirror-list contact, though the vendor may already have been
contacted for the manifest download when `--retrievemanifestfrom` was
given. -/
theorem parameter_errors_before_io (o : Options) (files : List String)
    (bc : Int) (fl : List String) :
    ((o.numberofmirrors < 2 ∨
      (∃ r, o.redundancy = some r ∧ (r < 2 ∨ o.numberofmirrors < r)) ∨
      ((o.rng = true ∨ o.parallel = true) ∧ o.redundancy = none)) →
      run_client o files bc fl = ⟨[], some 1⟩) ∧
    ((o.redundancy.isSome = true ∧ bc < o.numberofmirrors * 8) →
      (run_client o files bc fl).exit = some 1 ∧
      NetEvent.vendorMirrorlist ∉ (run_client o files bc fl).events ∧
      NetEvent.mirrorConnect ∉ (run_client o files bc fl).events) := by
  constructor
  · intro hD
    have hp : (parse_options o files).2 = some 1 := by
      unfold parse_options parse_checks
      rcases hD with h | ⟨r, hr, h | h⟩ | ⟨hrp, hred⟩
      · rw [applyParallel_numberofmirrors]
        simp [h]
      · rw [applyParallel_numberofmirrors, applyParallel_redundancy, hr]
        by_cases h1 : o.numberofmirrors < 2 <;> simp [h1, h]
      · rw [applyParallel_numberofmirrors, applyParallel_redundancy, hr]
        by_cases h1 : o.numberofmirrors < 2
        · simp [h1]
        · by_cases h2 : r < 2 <;> simp [h1, h2, h]
      · rw [applyParallel_numberofmirrors, applyParallel_redundancy,
          applyParallel_rng, applyParallel_parallel, hred]
        have hb : (o.rng || o.parallel || o.parallel) = true := by
          rcases hrp with h | h <;> simp [h]
        by_cases h1 : o.numberofmirrors < 2 <;>
          simp [h1, hb, pyFalsyRedundancy]
    rw [run_client_eq, hp]
  · rintro ⟨hr, hbc⟩
    rw [run_client_eq]
    cases hpe : (parse_options o files).2 with
    | some c =>
      have hc : c = 1 := by
        apply parse_checks_exit_one (applyParallel o) files
        unfold parse_options at hpe
        exact hpe
      subst hc
      exact ⟨rfl, by simp, by simp⟩
    | none =>
      have hg := client_main_chunk_guard (applyParallel o) files bc fl
        (by rw [applyParallel_redundancy]; exact hr)
        (by rw [applyParallel_numberofmirrors]; exact hbc)
      refine ⟨?_, ?_, ?_⟩
      · show (client_main (applyParallel o) files bc fl).exit = some 1
        rw [hg]
      · show NetEvent.vendorMirrorlist ∉ (client_main (applyParallel o) files bc fl).events
        rw [hg, applyParallel_retrievemanifestfrom]
        by_cases hrm : o.retrievemanifestfrom <;> simp [hrm]
      · show NetEvent.mirrorConnect ∉ (client_main (applyParallel o) files bc fl).events
        rw [hg, applyParallel_retrievemanifestfrom]
        by_cases hrm : o.retrievemanifestfrom <;> simp [hrm]

/-- Witness for `parameter_errors_before_io`: `k = 1` exits with code 1
and an empty network trace. -/
theorem parameter_errors_before_io_witness :
    ((1 : Int) < 2 ∨
      (∃ r, (none : Option Int) = some r ∧ (r < 2 ∨ (1 : Int) < r)) ∨
      ((false = true ∨ false = true) ∧ (none : Option Int) = none)) ∧
    run_client ⟨false, false, 1, none, false, false, false, false⟩ ["f"] 100 [] =
      ⟨[], some 1⟩ :=
  ⟨Or.inl (by norm_num),
    (parameter_errors_before_io ⟨false, false, 1, none, false, false, false, false⟩
      ["f"] 100 []).1 (Or.inl (by norm_num))⟩

/-- C6: in a run that passes option parsing and the chunk/blockcount
guard, a requested file name absent from the manifest's file list makes
the client exit with code 2 before any block retrieval: neither the
mirror list is requested nor a mirror contacted.  (The error message is
printed at the same site, line 516.) -/
theorem missing_file_exits_two (o : Options) (files : List String)
    (bc : Int) (fl : List String)
    (hparse : (parse_options o files).2 = none)
    (hguard : ¬(o.redundancy.isSome = true ∧ bc < o.numberofmirrors * 8))
    (hmiss : ∃ f ∈ files, f ∉ fl) :
    (run_client o files bc fl).exit = some 2 ∧
    NetEvent.vendorMirrorlist ∉ (run_client o files bc fl).events ∧
    NetEvent.mirrorConnect ∉ (run_client o files bc fl).events := by
  rw [run_client_eq, hparse]
  show (client_main (applyParallel o) files bc fl).exit = some 2 ∧ _ ∧ _
  unfold client_main
  rw [applyParallel_numberofmirrors, applyParallel_redundancy,
    applyParallel_retrievemanifestfrom]
  have hg : (decide (bc < o.numberofmirrors * 8) && o.redundancy.isSome) = false := by
    rcases hrs : o.redundancy.isSome with _ | _
    · simp
    · have : ¬ bc < o.numberofmirrors * 8 := fun hb => hguard ⟨hrs, hb⟩
      simp [this]
  rw [hg]
  have hany : (files.any fun f => decide (f ∉ fl)) = true := by
    rcases hmiss with ⟨f, hf, hnotin⟩
    simp only [List.any_eq_true]
    exact ⟨f, hf, by simpa using hnotin⟩
  simp only [Bool.false_eq_true, if_false, hany, if_true]
  refine ⟨by trivial, ?_, ?_⟩ <;>
    (by_cases hrm : o.retrievemanifestfrom <;> simp [hrm])

/-- Witness for `missing_file_exits_two`: requesting file `"f"` against
an empty manifest file list. -/
theorem missing_file_exits_two_witness :
    (parse_options ⟨false, false, 2, none, false, false, false, false⟩ ["f"]).2 = none ∧
    (run_client ⟨false, false, 2, none, false, false, false, false⟩ ["f"] 100 []).exit =
      some 2 :=
  ⟨rfl,
    (missing_file_exits_two ⟨false, false, 2, none, false, false, false, false⟩
      ["f"] 100 [] rfl (by simp) ⟨"f", by simp, by simp⟩).1⟩

theorem le_eight_mul_bits_to_bytes (n : ℕ) : n ≤ 8 * bits_to_bytes n := by
  unfold bits_to_bytes
  have h := Nat.div_add_mod n 8
  have h8 : n % 8 < 8 := Nat.mod_lt _ (by norm_num)
  by_cases hz : n % 8 = 0 <;> simp [hz] <;> omega

theorem bits_to_bytes_cast_ge (n : ℕ) : (n : ℚ) / 8 ≤ (bits_to_bytes n : ℚ) := by
  rw [div_le_iff₀ (by norm_num)]
  have h := le_eight_mul_bits_to_bytes n
  have : (n : ℚ) ≤ ((8 * bits_to_bytes n : ℕ) : ℚ) := by exact_mod_cast h
  push_cast at this
  linarith

/-- C1 counterexample: at `blockcount = 24`, `k = 2` (which satisfies
`blockcount ≥ 8k`), the client's `chunklen` is `3/2` bytes — Python 3
true division, not an integer, so the first chunk is not
byte-aligned, and it also differs from the floor-division value
`(24 / 8) / 2 = 1`. -/
theorem chunklen_not_integral_at_24_2 :
    8 * 2 ≤ 24 ∧
    chunklen 24 2 = 3 / 2 ∧
    (¬ ∃ m : ℤ, chunklen 24 2 = (m : ℚ)) ∧
    chunklen 24 2 ≠ ((24 / 8 / 2 : ℕ) : ℚ) ∧
    lastchunklen 24 2 = 3 / 2 := by
  have h1 : chunklen 24 2 = 3 / 2 := by
    unfold chunklen
    norm_num
  have h2 : lastchunklen 24 2 = 3 / 2 := by
    unfold lastchunklen bits_to_bytes
    rw [h1]
    norm_num
  refine ⟨by norm_num, h1, ?_, ?_, h2⟩
  · rintro ⟨m, hm⟩
    rw [h1, div_eq_iff (by norm_num : (2 : ℚ) ≠ 0)] at hm
    have h3 : (3 : ℤ) = m * 2 := by exact_mod_cast hm
    omega
  · rw [h1]
    norm_num

/-- C1 (amended): for `2 ≤ k` and `8k ≤ n` the client computes
`chunklen = (n/8)/k = n/(8k)` by exact division; it is positive, the
last chunk length `ceil(n/8) − (k−1)·chunklen` is positive, the k chunk
lengths sum to `ceil(n/8)` (so the k consecutive ranges are disjoint and
cover `[0, ceil(n/8))`, with rational boundaries), and `chunklen` is an
integer — i.e. the first k−1 chunks are byte-aligned — precisely when
`8k` divides `n`. -/
theorem chunk_layout_partition (n k : ℕ) (hk : 2 ≤ k) (hn : 8 * k ≤ n) :
    chunklen n k = (n : ℚ) / (8 * k) ∧
    0 < chunklen n k ∧
    0 < lastchunklen n k ∧
    ((k : ℚ) - 1) * chunklen n k + lastchunklen n k = (bits_to_bytes n : ℚ) ∧
    ((∃ m : ℕ, chunklen n k = (m : ℚ)) ↔ 8 * k ∣ n) := by
  have hkq : (0 : ℚ) < (k : ℚ) := by
    have : (2 : ℚ) ≤ (k : ℚ) := by exact_mod_cast hk
    linarith
  have hn0 : 0 < n := lt_of_lt_of_le (by positivity) hn
  have hnq : (0 : ℚ) < (n : ℚ) := by exact_mod_cast hn0
  have hq : chunklen n k = (n : ℚ) / (8 * k) := by
    unfold chunklen
    rw [div_div]
  have hpos : 0 < chunklen n k := by
    rw [hq]
    positivity
  have hlt : ((k : ℚ) - 1) * chunklen n k < (n : ℚ) / 8 := by
    rw [hq]
    rw [show (n : ℚ) / 8 = (k : ℚ) * ((n : ℚ) / (8 * k)) by
      field_simp
      ring]
    apply mul_lt_mul_of_pos_right _ (by positivity)
    linarith
  have hlast : 0 < lastchunklen n k := by
    unfold lastchunklen
    have hB := bits_to_bytes_cast_ge n
    have := hq
    nlinarith [hlt, hB]
  refine ⟨hq, hpos, hlast, by unfold lastchunklen; ring, ?_⟩
  rw [hq]
  constructor
  · rintro ⟨m, hm⟩
    rw [div_eq_iff (by positivity)] at hm
    have hmn : n = m * (8 * k) := by
      have : (n : ℚ) = ((m * (8 * k) : ℕ) : ℚ) := by
        push_cast
        linarith [hm]
      exact_mod_cast this
    exact ⟨m, by rw [hmn, Nat.mul_comm]⟩
  · rintro ⟨m, hm⟩
    refine ⟨m, ?_⟩
    rw [hm]
    push_cast
    rw [mul_comm ((8 : ℚ) * (k : ℚ)) (m : ℚ), mul_div_assoc,
      div_self (by positivity), mul_one]

/-- Witness for `chunk_layout_partition` at `n = 32`, `k = 2`:
`chunklen = 2` bytes, `lastchunklen = 2` bytes. -/
theorem chunk_layout_partition_witness :
    2 ≤ 2 ∧ 8 * 2 ≤ 32 ∧ chunklen 32 2 = (32 : ℚ) / (8 * 2) ∧
    0 < lastchunklen 32 2 :=
  ⟨by norm_num, by norm_num, (chunk_layout_partition 32 2 (by norm_num) (by norm_num)).1,
    (chunk_layout_partition 32 2 (by norm_num) (by norm_num)).2.2.1⟩

theorem mem_appendNewBlocks (bs : List ℕ) (acc : List ℕ) (b : ℕ) :
    b ∈ appendNewBlocks acc bs ↔ b ∈ acc ∨ b ∈ bs := by
  induction bs generalizing acc with
  | nil => simp [appendNewBlocks]
  | cons x xs ih =>
    unfold appendNewBlocks
    rw [List.foldl_cons]
    have hx := ih (if b = x then acc else acc)
    by_cases hmem : x ∈ acc
    · rw [if_pos hmem]
      rw [show List.foldl (fun a b => if b ∈ a then a else a ++ [b]) acc xs =
          appendNewBlocks acc xs from rfl, ih]
      constructor
      · rintro (h | h)
        · exact Or.inl h
        · exact Or.inr (List.mem_cons_of_mem _ h)
      · rintro (h | h)
        · exact Or.inl h
        · rcases List.mem_cons.mp h with h | h
          · exact Or.inl (h ▸ hmem)
          · exact Or.inr h
    · rw [if_neg hmem]
      rw [show List.foldl (fun a b => if b ∈ a then a else a ++ [b]) (acc ++ [x]) xs =
          appendNewBlocks (acc ++ [x]) xs from rfl, ih]
      simp only [List.mem_append, List.mem_singleton, List.mem_cons]
      tauto

theorem nodup_appendNewBlocks (bs : List ℕ) (acc : List ℕ)
    (h : acc.Nodup) : (appendNewBlocks acc bs).Nodup := by
  induction bs generalizing acc with
  | nil => exact h
  | cons x xs ih =>
    unfold appendNewBlocks
    rw [List.foldl_cons]
    by_cases hmem : x ∈ acc
    · rw [if_pos hmem]
      exact ih acc h
    · rw [if_neg hmem]
      apply ih
      rw [← List.concat_eq_append]
      exact List.Nodup.concat hmem h

theorem neededblocks_go (blocksFor : String → List ℕ) (files : List String)
    (acc : List ℕ) :
    (acc.Nodup →
      (files.foldl (fun a f => appendNewBlocks a (blocksFor f)) acc).Nodup) ∧
    (∀ b, b ∈ files.foldl (fun a f => appendNewBlocks a (blocksFor f)) acc ↔
      b ∈ acc ∨ ∃ f ∈ files, b ∈ blocksFor f) := by
  induction files generalizing acc with
  | nil => simp
  | cons g gs ih =>
    rw [List.foldl_cons]
    refine ⟨fun h => (ih _).1 (nodup_appendNewBlocks _ _ h), fun b => ?_⟩
    rw [(ih _).2, mem_appendNewBlocks, List.exists_mem_cons_iff]
    tauto

/-- C4: `neededblocks` is the duplicate-free union of the per-file block
lists (`request_files_from_mirrors`, lines 302-311), and the processing
order — spec-modelled for the XOR requestor, which is outside the analysed
sources — is an ascending sorted permutation of it. -/
theorem requested_blocks_union_and_order (blocksFor : String → List ℕ)
    (files : List String) :
    (neededblocks blocksFor files).Nodup ∧
    (∀ b, b ∈ neededblocks blocksFor files ↔ ∃ f ∈ files, b ∈ blocksFor f) ∧
    List.Sorted (· ≤ ·) (processing_order (neededblocks blocksFor files)) ∧
    (processing_order (neededblocks blocksFor files)).Perm
      (neededblocks blocksFor files) := by
  have h := neededblocks_go blocksFor files []
  refine ⟨h.1 List.nodup_nil, fun b => ?_, ?_, ?_⟩
  · have hb := h.2 b
    unfold neededblocks
    simpa using hb
  · exact List.sorted_insertionSort _ _
  · exact List.perm_insertionSort _ _

/-- C5: every file the write-out loop writes to disk passed its hash
check (its reassembled data, hashed with the manifest's hash algorithm,
matches the manifest entry found for it), and if any requested file's
hash mismatches its manifest entry the loop raises and aborts (`.2` is
`some` error message). -/
theorem written_files_hash_checked (findHash extract : String → String)
    (fileinfolist : List FileInfo) (files : List String) :
    (∀ w ∈ (write_phase findHash extract fileinfolist files).1,
      ∃ f ∈ files, w = basename f ∧
        ∃ fi, fileinfolist.find? (fun x => x.filename == f) = some fi ∧
          findHash (extract f) = fi.hash) ∧
    ((∃ f ∈ files, ∃ fi,
        fileinfolist.find? (fun x => x.filename == f) = some fi ∧
        findHash (extract f) ≠ fi.hash) →
      ((write_phase findHash extract fileinfolist files).2).isSome = true) := by
  induction files with
  | nil => simp [write_phase]
  | cons f rest ih =>
    unfold write_phase
    cases hfind : fileinfolist.find? (fun x => x.filename == f) with
    | none =>
      refine ⟨by simp, fun hex => rfl⟩
    | some fi =>
      dsimp only
      by_cases hhash : findHash (extract f) = fi.hash
      · rw [if_pos hhash]
        constructor
        · intro w hw
          rcases List.mem_cons.mp hw with hw | hw
          · exact ⟨f, List.mem_cons_self _ _, hw, fi, hfind, hhash⟩
          · rcases ih.1 w hw with ⟨g, hg, hwg, fig, hfig, hhg⟩
            exact ⟨g, List.mem_cons_of_mem _ hg, hwg, fig, hfig, hhg⟩
        · rintro ⟨g, hg, fig, hfig, hne⟩
          rcases List.mem_cons.mp hg with hg | hg
          · subst hg
            rw [hfind] at hfig
            cases hfig
            exact absurd hhash hne
          · exact ih.2 ⟨g, hg, fig, hfig, hne⟩
      · rw [if_neg hhash]
        exact ⟨by simp, fun _ => rfl⟩

/-- Witness for `written_files_hash_checked`: a one-file manifest whose
recorded hash differs from the recomputed one aborts the loop. -/
theorem written_files_hash_checked_witness :
    (∃ f ∈ ["x"], ∃ fi,
      [(⟨"x", "BAD"⟩ : FileInfo)].find? (fun x => x.filename == f) = some fi ∧
      (fun s : String => s) ((fun s : String => s) f) ≠ fi.hash) ∧
    ((write_phase (fun s => s) (fun s => s) [⟨"x", "BAD"⟩] ["x"]).2).isSome = true :=
  ⟨⟨"x", by simp, ⟨"x", "BAD"⟩, rfl, by decide⟩,
    (written_files_hash_checked (fun s => s) (fun s => s) [⟨"x", "BAD"⟩] ["x"]).2
      ⟨"x", by simp, ⟨"x", "BAD"⟩, rfl, by decide⟩⟩

/-- C9 counterexample: a payload within the size bound that unpacks to
`{'ip': 5, 'port': 6}` — a dict with both required keys — satisfies every
condition of the claim (with `checkmirrorip` unset), yet nothing is added
to the mirror map and no reply is sent: `_add_mirrorinfo_to_list` raises
`TypeError` concatenating the integer `'ip'` value into the `'ip:port'`
key. -/
theorem advertise_nonstring_ip_raises :
    claimedAdvertiseOk 10240 false "9.9.9.9" 10
      (some (.vdict [("ip", .vint 5), ("port", .vint 6)])) = true ∧
    handle_advertise 10240 false 0 "9.9.9.9" 10
      (some (.vdict [("ip", .vint 5), ("port", .vint 6)])) [] =
      ([], .raisedTypeError) := by
  constructor
  · rfl
  · rfl

/-- C9 (amended): the vendor stores an entry (keyed `'ip:port'`,
replacing any previous entry for that key, and replies `'OK'`) iff the
payload is within `maxmirrorinfo`, unpacks to a dict with `'ip'` and
`'port'` keys, passes the sender-IP check when enabled, **and** the
`'ip'` value is a string; whenever the claimed conditions fail the map is
unchanged and an error string is replied, and when they hold but the
`'ip'` value is not a string the handler raises `TypeError`, leaving the
map unchanged and sending no reply. -/
theorem advertise_add_iff (maxi : Int) (check : Bool) (now : Int)
    (remoteip : String) (len : Nat) (unpacked : Option PyVal)
    (d : MirrorDict) :
    (claimedAdvertiseOk maxi check remoteip len unpacked = false →
      (handle_advertise maxi check now remoteip len unpacked d).1 = d ∧
      ∃ s, (handle_advertise maxi check now remoteip len unpacked d).2 =
        .replied s ∧ s ≠ "OK") ∧
    (∀ entries, unpacked = some (.vdict entries) →
      claimedAdvertiseOk maxi check remoteip len unpacked = true →
      (ipIsStr entries = true →
        ∃ ip portv, dictLookup entries "ip" = some (.vstr ip) ∧
          dictLookup entries "port" = some portv ∧
          handle_advertise maxi check now remoteip len unpacked d =
            (dictSet d (ip ++ ":" ++ pyStr portv) ⟨.vdict entries, now⟩,
              .replied "OK")) ∧
      (ipIsStr entries = false →
        handle_advertise maxi check now remoteip len unpacked d =
          (d, .raisedTypeError))) := by
  constructor
  · intro hfail
    by_cases hsize : maxi < (len : Int)
    · unfold handle_advertise
      rw [if_pos hsize]
      exact ⟨rfl, "Error, mirrorinfo too large!", rfl, by decide⟩
    · unfold handle_advertise
      rw [if_neg hsize]
      cases unpacked with
      | none => exact ⟨rfl, "Error cannot unpack mirrorinfo!", rfl, by decide⟩
      | some v =>
        cases v with
        | vstr s =>
          exact ⟨rfl, "Error, mirrorinfo has an invalid format.", rfl, by decide⟩
        | vint n =>
          exact ⟨rfl, "Error, mirrorinfo has an invalid format.", rfl, by decide⟩
        | vdict entries =>
          unfold claimedAdvertiseOk at hfail
          have hsz : decide ((len : Int) ≤ maxi) = true := by
            simp [not_lt.mp hsize]
          rw [hsz] at hfail
          simp only [Bool.true_and, Bool.and_eq_false_iff] at hfail
          dsimp only
          rcases hfail with (hip | hport) | hrest
          · have : ((dictLookup entries "ip").isNone ||
                (dictLookup entries "port").isNone) = true := by
              rcases h : dictLookup entries "ip" with _ | v
              · rfl
              · rw [h] at hip
                simp at hip
            rw [if_pos this]
            exact ⟨rfl, "Error, mirrorinfo has an invalid format.", rfl, by decide⟩
          · have : ((dictLookup entries "ip").isNone ||
                (dictLookup entries "port").isNone) = true := by
              rcases h : dictLookup entries "port" with _ | v
              · simp
              · rw [h] at hport
                simp at hport
            rw [if_pos this]
            exact ⟨rfl, "Error, mirrorinfo has an invalid format.", rfl, by decide⟩
          · have hcheck : check = true ∧
                pyEqStr (dictLookup entries "ip") remoteip = false := by
              rcases check <;> rcases hpe : pyEqStr (dictLookup entries "ip") remoteip <;>
                simp_all
            by_cases hform : ((dictLookup entries "ip").isNone ||
                (dictLookup entries "port").isNone) = true
            · rw [if_pos hform]
              exact ⟨rfl, "Error, mirrorinfo has an invalid format.", rfl, by decide⟩
            · rw [if_neg hform]
              have : (check && !(pyEqStr (dictLookup entries "ip") remoteip)) = true := by
                rw [hcheck.1, hcheck.2]
                rfl
              rw [if_pos this]
              exact ⟨rfl, "Error, must provide mirrorinfo from the mirror's IP", rfl, by decide⟩
  · rintro entries rfl hok
    unfold claimedAdvertiseOk at hok
    simp only [Bool.and_eq_true] at hok
    obtain ⟨⟨⟨hsz, hip⟩, hport⟩, hcheck⟩ := hok
    have hsize : ¬ maxi < (len : Int) := not_lt.mpr (of_decide_eq_true hsz)
    rcases hipv : dictLookup entries "ip" with _ | ipv
    · rw [hipv] at hip
      simp at hip
    rcases hportv : dictLookup entries "port" with _ | portv
    · rw [hportv] at hport
      simp at hport
    have hguard2 : (check && !(pyEqStr (dictLookup entries "ip") remoteip)) = false := by
      rcases check
      · rfl
      · rcases hpe : pyEqStr (dictLookup entries "ip") remoteip
        · rw [hpe] at hcheck
          simp at hcheck
        · simp [hpe]
    constructor
    · intro hstr
      rw [hipv] at hguard2
      unfold ipIsStr at hstr
      rw [hipv] at hstr
      cases ipv with
      | vstr s =>
        refine ⟨s, portv, rfl, rfl, ?_⟩
        unfold handle_advertise
        rw [if_neg hsize]
        dsimp only
        rw [hipv, hportv]
        rw [if_neg (by simp)]
        rw [if_neg (by simp [hguard2])]
        unfold add_mirrorinfo_to_list
        rw [hipv, hportv]
      | vint n => simp at hstr
      | vdict es => simp at hstr
    · intro hstr
      rw [hipv] at hguard2
      unfold ipIsStr at hstr
      rw [hipv] at hstr
      unfold handle_advertise
      rw [if_neg hsize]
      dsimp only
      rw [hipv, hportv]
      rw [if_neg (by simp)]
      rw [if_neg (by simp [hguard2])]
      unfold add_mirrorinfo_to_list
      rw [hipv, hportv]
      cases ipv with
      | vstr s => simp at hstr
      | vint n => rfl
      | vdict es => rfl

/-- Witness for `advertise_add_iff`: a valid advertisement
`{'ip': "1.2.3.4", 'port': 6}` is stored under key `"1.2.3.4:6"` with an
`'OK'` reply. -/
theorem advertise_add_iff_witness :
    claimedAdvertiseOk 10240 false "9.9.9.9" 10
      (some (.vdict [("ip", .vstr "1.2.3.4"), ("port", .vint 6)])) = true ∧
    handle_advertise 10240 false 7 "9.9.9.9" 10
      (some (.vdict [("ip", .vstr "1.2.3.4"), ("port", .vint 6)])) [] =
      ([("1.2.3.4:6",
          ⟨.vdict [("ip", .vstr "1.2.3.4"), ("port", .vint 6)], 7⟩)],
        .replied "OK") := by
  refine ⟨rfl, ?_⟩
  obtain ⟨hstrimp, _⟩ :=
    (advertise_add_iff 10240 false 7 "9.9.9.9" 10
      (some (.vdict [("ip", .vstr "1.2.3.4"), ("port", .vint 6)])) []).2
      [("ip", .vstr "1.2.3.4"), ("port", .vint 6)] rfl rfl
  obtain ⟨ip, portv, hipv, hportv, heq⟩ := hstrimp rfl
  have hips : ip = "1.2.3.4" := by
    have : (some (PyVal.vstr "1.2.3.4") : Option PyVal) = some (PyVal.vstr ip) := hipv
    cases this
    rfl
  have hps : portv = PyVal.vint 6 := by
    have : (some (PyVal.vint 6) : Option PyVal) = some portv := hportv
    cases this
    rfl
  subst hips
  subst hps
  exact heq

end RaidPir
